import Mathlib

/-!
# Verification of the fhir-structure-navigator path-resolution core

Shallow embedding of the FHIR structure navigator (`FhirStructureNavigator`,
`splitFshPath`, `initCap` and helpers), translated from the TypeScript source.
The snapshot provider and metadata resolver are external collaborators and are
modelled as an explicit environment of pure lookup functions.  The two-tier
caches are modelled as transparent (cold-start semantics): a cache `get` before
the corresponding `set` misses, so the embedding follows the computation that
populates the caches; recursion through rebasing is made total with a fuel
parameter (`NavResult.diverge` reports fuel exhaustion).
-/

set_option autoImplicit false

namespace FhirNav

/-! ## String primitives

JavaScript string operations are modelled on the character list `String.data`.
-/

/-- `initCap(str)`: uppercase the first character, keep the rest. -/
def initCap (str : String) : String :=
  match str.data with
  | [] => ""
  | c :: cs => ⟨Char.toUpper c :: cs⟩

/-- JS `s.startsWith(p)`. -/
def strStartsWith (s p : String) : Bool :=
  p.data.isPrefixOf s.data

/-- JS `s.endsWith(p)`. -/
def strEndsWith (s p : String) : Bool :=
  p.data.isSuffixOf s.data

/-- JS `s.includes(c)` for a single character. -/
def strContains (s : String) (c : Char) : Bool :=
  s.data.contains c

/-- JS `s.slice(n)` / `s.substring(n)` for a nonnegative index. -/
def strDrop (s : String) (n : Nat) : String :=
  ⟨s.data.drop n⟩

/-- JS `s.slice(0, -n)`. -/
def strDropRight (s : String) (n : Nat) : String :=
  ⟨s.data.take (s.data.length - n)⟩

/-- JS `s.length` (code units; code points in this model). -/
def strLen (s : String) : Nat :=
  s.data.length

/-- Character-list splitter underlying JS `s.split(sep)` for a one-character
separator: always returns at least one (possibly empty) piece. -/
def splitCL (sep : Char) : List Char → List (List Char)
  | [] => [[]]
  | c :: cs =>
    if c = sep then [] :: splitCL sep cs
    else
      match splitCL sep cs with
      | [] => [[c]]
      | h :: t => (c :: h) :: t

/-- JS `s.split(sep)` for a one-character separator. -/
def strSplit (s : String) (sep : Char) : List String :=
  (splitCL sep s.data).map (fun l => ⟨l⟩)

/-! ## Path lexer (`splitFshPath`, from `src/utils.ts`)

The source walks the string once with a boolean `inBrackets` flag:
`[` sets it, `]` clears it, and a `.` is a segment boundary only when the flag
is clear; the trailing accumulator is emitted when non-empty.
-/

/-- Loop body of `splitFshPath`: `cur` is the accumulator, `inB` the
`inBrackets` flag. -/
def splitFshGo : List Char → List Char → Bool → List String
  | [], cur, _ => if cur ≠ [] then [⟨cur⟩] else []
  | c :: rest, cur, inB =>
    let inB' := if c = '[' then true else if c = ']' then false else inB
    if c = '.' ∧ inB' = false then ⟨cur⟩ :: splitFshGo rest [] inB'
    else splitFshGo rest (cur ++ [c]) inB'

/-- `splitFshPath` from `src/utils.ts`. -/
def splitFshPath (path : String) : List String :=
  splitFshGo path.data [] false

/-! ## Data model

`ElementDefinitionType` / `EnrichedElementDefinition` keep the fields the
navigator reads.  An absent TypeScript `profile` array and an empty one behave
identically everywhere they are read (`profile?.length`, `profile?.[0]`), so
`profile` is a plain list; `type` distinguishes absent from empty (the
enricher's `el.type && ...` guard treats `[]` as present). -/

structure ElementDefinitionType where
  code : String
  profile : List String := []
  __kind : Option String := none
deriving DecidableEq, Repr

structure ElementDefinition where
  id : String
  path : String
  type : Option (List ElementDefinitionType) := none
  contentReference : Option String := none
  __fromDefinition : String := ""
  __name : Option (List String) := none
deriving DecidableEq, Repr

structure Pkg where
  id : String
  version : String
deriving DecidableEq, Repr

/-- A snapshot value object as returned by the snapshot provider
(`snapshot.snapshot.element` flattened into `elements`). -/
structure Snapshot where
  url : String
  type : String
  kind : String
  __corePackage : Pkg
  __packageId : String
  __packageVersion : String
  elements : List ElementDefinition
deriving DecidableEq, Repr

/-- Result record of a metadata `lookup` (file-index entry): the navigator
only reads its `type` and package coordinates. -/
structure SnapRef where
  type : String
  __packageId : String
  __packageVersion : String
deriving DecidableEq, Repr

/-- External collaborators: the snapshot provider (`fsg.getSnapshot`) and the
package explorer's `lookup`.  A `none` / `[]` result models a not-found
error being thrown by the collaborator. -/
structure Env where
  getSnapshot : String → Option Pkg → Option Snapshot
  lookup : String → Pkg → List SnapRef

inductive NavError where
  | notFound (segment : String) (prevPath : String) (snapshotId : String)
  | sliceNotFound (slice : String) (baseId : String)
  | typeMismatch (id : String) (actualType : String) (allowed : List String)
  | choiceType (path : String)
  | unavailable (id : String)
  | crash
deriving DecidableEq, Repr

inductive NavResult (α : Type) where
  | ok : α → NavResult α
  | err : NavError → NavResult α
  | diverge : NavResult α
deriving DecidableEq, Repr

/-! ## Enrichment (`_getCachedSnapshot`, the parts visible to resolution)

The enricher tags each element with `__fromDefinition = snapshot.url` and
computes `__name`.  The verbose-field stripping operates on fields absent from
this model, and the per-type `__kind` classification only copies metadata no
claim depends on, so both are omitted. -/

def enrichElement (url : String) (el : ElementDefinition) : ElementDefinition :=
  let el := { el with __fromDefinition := url }
  match el.type with
  | some ts =>
    let lastSegment := (strSplit el.path '.').getLastD ""
    if h : ts.length = 1 then
      let t := ts.head (by intro hn; simp [hn] at h)
      if strEndsWith lastSegment "[x]" then
        { el with __name := some [strDropRight lastSegment 3 ++ initCap t.code] }
      else
        { el with __name := some [lastSegment] }
    else if ts.length > 1 ∧ strEndsWith lastSegment "[x]" then
      { el with
        __name := some (ts.map (fun t => strDropRight lastSegment 3 ++ initCap t.code)) }
    else el
  | none =>
    match el.contentReference with
    | some cr => { el with __name := some [(strSplit cr '.').getLastD ""] }
    | none => el

def getCachedSnapshot (env : Env) (id : String) (packageFilter : Option Pkg) :
    Option Snapshot :=
  (env.getSnapshot id packageFilter).map fun s =>
    { s with elements := s.elements.map (enrichElement s.url) }

/-! ## Segment parsing and polymorphic matching -/

/-- `_parseSegment`: regex `^([^[\]:]+)(?:\[(.+?)\])?$`; on failure the whole
segment becomes `base` with no slice. -/
def parseSegment (segment : String) : String × Option String :=
  let cs := segment.data
  let baseChars := cs.takeWhile (fun c => ¬ (c = '[' ∨ c = ']' ∨ c = ':'))
  let rest := cs.drop baseChars.length
  if baseChars.isEmpty then (segment, none)
  else
    match rest with
    | [] => (⟨baseChars⟩, none)
    | r :: rs =>
      if r = '[' ∧ rs.getLast? = some ']' ∧ rs.length ≥ 2 then
        (⟨baseChars⟩, some ⟨rs.dropLast⟩)
      else (segment, none)

/-- `_isPolymorphic`. -/
def isPolymorphic (el : ElementDefinition) : Bool :=
  strEndsWith el.path "[x]"

/-- Regex `^(.+)\[([^\]]+)\]$` over `searchPath` (greedy `outer`): succeeds
iff the string ends in `]` and the part after the last `[` (before that final
`]`) is non-empty and free of `]`, with a non-empty `outer`. -/
def bracketSearchMatch (s : String) : Option (String × String) :=
  match s.data.getLast? with
  | some ']' =>
    let body := s.data.dropLast
    let revBody := body.reverse
    let innerRev := revBody.takeWhile (fun c => c ≠ '[')
    if innerRev.length = revBody.length then none
    else
      let outer := (revBody.drop (innerRev.length + 1)).reverse
      let inner := innerRev.reverse
      if outer.isEmpty ∨ inner.isEmpty ∨ inner.contains ']' then none
      else some (⟨outer⟩, ⟨inner⟩)
  | _ => none

/-- `_resolveElementPathWithPolymorphism`: first match wins over the element
sequence; per element, direct match, then canonical-suffix narrowing, then
bracket narrowing (with `inner == "x"` returning the choice head). -/
def resolveElementPathWithPolymorphism (elements : List ElementDefinition)
    (searchPath : String) :
    Option (ElementDefinition × Option ElementDefinitionType) :=
  match elements with
  | [] => none
  | el :: rest =>
    if el.id = searchPath ∨ el.id = searchPath ++ "[x]" then some (el, none)
    else if isPolymorphic el then
      let basePath := strDropRight el.id 3
      match (el.type.getD []).find? (fun t => basePath ++ initCap t.code = searchPath) with
      | some t => some (el, some t)
      | none =>
        match bracketSearchMatch searchPath with
        | some (outer, inner) =>
          if outer = basePath then
            if inner = "x" then some (el, none)
            else
              match (el.type.getD []).find?
                  (fun t => inner = outer ++ initCap t.code ∨ inner = initCap t.code) with
              | some t => some (el, some t)
              | none => resolveElementPathWithPolymorphism rest searchPath
          else resolveElementPathWithPolymorphism rest searchPath
        | none => resolveElementPathWithPolymorphism rest searchPath
    else resolveElementPathWithPolymorphism rest searchPath

/-- `_inferredSliceName`. -/
def inferredSliceName (elementId : String) (typeCode : String) : String :=
  let lastSegment := (strSplit elementId '.').getLastD ""
  strDropRight lastSegment 3 ++ initCap typeCode

/-! ## Resolver core

`_resolvePath` recurses through `_attemptRebase` and `_resolveSlice`; each
re-entrant call is made on the fuel-decremented `resolvePath`, threaded into
the helpers as the function argument `rp`. -/

/-- Type of the re-entrant `_resolvePath` call. -/
abbrev RP := String → List String → Option Pkg → Option ElementDefinition →
  NavResult ElementDefinition

/-- `_tryResolveSnapshot`: metadata lookup in the core package (singleton
required), else a generic snapshot fetch; either result must have an allowed
type.  `Except.ok none` models the `null` "not found at all" return. -/
def tryResolveSnapshot (env : Env) (id : String)
    (allowedTypes : List ElementDefinitionType) (corePackage : Pkg) :
    Except NavError (Option SnapRef) :=
  let isAllowed := fun (snapshotType : String) =>
    allowedTypes.any (fun t => t.code = snapshotType)
  match env.lookup id corePackage with
  | [rec] =>
    if ¬ isAllowed rec.type then
      .error (.typeMismatch id rec.type (allowedTypes.map (·.code)))
    else .ok (some rec)
  | _ =>
    match getCachedSnapshot env id none with
    | some snapshot =>
      if snapshot.type ≠ "" then
        if ¬ isAllowed snapshot.type then
          .error (.typeMismatch id snapshot.type (allowedTypes.map (·.code)))
        else .ok (some ⟨snapshot.type, snapshot.__packageId, snapshot.__packageVersion⟩)
      else .ok none
    | none => .ok none

/-- `_resolveSlice`: real slice, polymorphic `x` / type-code narrowing, then
virtual slice via `_tryResolveSnapshot` (re-entering `_resolvePath` with no
segments in the resolved profile), else the "not a known slice" error. -/
def resolveSlice (env : Env) (rp : RP) (baseElement : ElementDefinition)
    (slice : String) (elements : List ElementDefinition) (corePackage : Pkg) :
    NavResult ElementDefinition :=
  let sliceId := baseElement.id ++ ":" ++ slice
  match elements.find? (fun e => e.id = sliceId) with
  | some sliceMatch => .ok sliceMatch
  | none =>
    let fallback :=
      let allowedTypes := baseElement.type.getD []
      match tryResolveSnapshot env slice allowedTypes corePackage with
      | .error e => .err e
      | .ok (some trySnapshot) =>
        rp slice [] (some ⟨trySnapshot.__packageId, trySnapshot.__packageVersion⟩) none
      | .ok none => .err (.sliceNotFound slice baseElement.id)
    if isPolymorphic baseElement then
      if slice = "x" then .ok baseElement
      else
        match (baseElement.type.getD []).find? (fun t => t.code = slice) with
        | some matchedType =>
          let nm := inferredSliceName baseElement.id matchedType.code
          let inferredSliceId := baseElement.id ++ ":" ++ nm
          match elements.find? (fun e => e.id = inferredSliceId) with
          | some inferredSliceMatch => .ok inferredSliceMatch
          | none =>
            .ok { baseElement with type := some [matchedType], __name := some [nm] }
        | none => fallback
    else fallback

/-- `_attemptRebase`: contentReference rebase (prepending the referenced path
to the remaining segments, in the snapshot's base type, core-package
filtered), else first-type/profile rebase with the same remaining segments;
`none` models the `undefined` "no rebase possible" return. -/
def attemptRebase (_env : Env) (rp : RP) (previous : Option ElementDefinition)
    (snapshot : Snapshot) (remainingSegments : List String) :
    Option (NavResult ElementDefinition) :=
  match previous with
  | none => none
  | some p =>
    match p.contentReference with
    | some cr =>
      match (strSplit cr '#').get? 1 with
      | none => some (.err .crash)
      | some refPath =>
        let baseType := snapshot.type
        let cleanRefPath :=
          if strStartsWith refPath (baseType ++ ".") then
            strDrop refPath (strLen (baseType ++ "."))
          else refPath
        let rebasedPath := strSplit cleanRefPath '.' ++ remainingSegments
        some (rp baseType rebasedPath (some snapshot.__corePackage) none)
    | none =>
      match p.type.getD [] with
      | [] => none
      | t :: _ =>
        let profHead := (t.profile.head?).getD ""
        let targetId := if profHead ≠ "" then profHead else t.code
        let targetPackage : Pkg :=
          if profHead ≠ "" then ⟨snapshot.__packageId, snapshot.__packageVersion⟩
          else snapshot.__corePackage
        some (rp targetId remainingSegments (some targetPackage) none)

/-- Segment loop of `_resolvePath` (the `for` over `pathSegments`), structural
on the remaining segments; `currentBaseUrl` is the entry snapshot's `url`. -/
def resolveLoop (env : Env) (rp : RP) (snapshotIdStr : String)
    (snapshot : Snapshot) (elements : List ElementDefinition) :
    List String → String → String → ElementDefinition →
    NavResult ElementDefinition
  | [], _, _, current => .ok current
  | seg :: rest, currentPath, currentBaseUrl, current =>
    let (base, sliceTok) := parseSegment seg
    let searchPath := currentPath ++ "." ++ base
    let previous := current
    match resolveElementPathWithPolymorphism elements searchPath with
    | none =>
      match attemptRebase env rp (some previous) snapshot (seg :: rest) with
      | some rebased => rebased
      | none => .err (.notFound seg previous.path snapshotIdStr)
    | some (resolvedElement, narrowedType) =>
      let current :=
        match narrowedType with
        | some t =>
          let nm := inferredSliceName resolvedElement.id t.code
          let narrowed :=
            { resolvedElement with type := some [t], __name := some [nm] }
          let inferredSliceId := resolvedElement.id ++ ":" ++ nm
          ((elements.find? (fun e => e.id = inferredSliceId)).getD narrowed)
        | none => resolvedElement
      match sliceTok with
      | some s =>
        match resolveSlice env rp current s elements snapshot.__corePackage with
        | .err e => .err e
        | .diverge => .diverge
        | .ok resolved =>
          if resolved.__fromDefinition ≠ currentBaseUrl then
            rp resolved.__fromDefinition rest none (some current)
          else
            resolveLoop env rp snapshotIdStr snapshot elements rest
              resolved.id currentBaseUrl resolved
      | none =>
        resolveLoop env rp snapshotIdStr snapshot elements rest
          current.id currentBaseUrl current

/-- Body of `_resolvePath` for one fuel step: fetch-and-enrich, empty-path
root handling (type replaced by the snapshot's own type/kind, `__name`
inherited and possibly filtered from `cameFromElement`), else the segment
loop. -/
def resolvePathBody (env : Env) (rp : RP) (snapshotId : String)
    (pathSegments : List String) (packageFilter : Option Pkg)
    (cameFromElement : Option ElementDefinition) :
    NavResult ElementDefinition :=
  match getCachedSnapshot env snapshotId packageFilter with
  | none => .err (.unavailable snapshotId)
  | some snapshot =>
    match snapshot.elements with
    | [] => .err .crash
    | rootEl :: _ =>
      match pathSegments with
      | [] =>
        let root := { rootEl with
          type := some [{ code := snapshot.type, profile := [],
                          __kind := some snapshot.kind }] }
        let root :=
          match cameFromElement with
          | some cf =>
            match cf.__name with
            | some names =>
              if names.length > 1 then
                { root with __name := (some (names.filter
                    (fun nm => strEndsWith nm (initCap snapshot.type)))) }
              else { root with __name := some names }
            | none => root
          | none => root
        .ok root
      | seg :: rest =>
        resolveLoop env rp snapshotId snapshot snapshot.elements (seg :: rest)
          rootEl.id snapshot.url rootEl

/-- `_resolvePath` with fuel: each re-entrant call runs at the decremented
fuel. -/
def resolvePath (env : Env) : Nat → String → List String → Option Pkg →
    Option ElementDefinition → NavResult ElementDefinition
  | 0, _, _, _, _ => .diverge
  | Nat.succ n, snapshotId, pathSegments, packageFilter, cameFromElement =>
    resolvePathBody env (resolvePath env n) snapshotId pathSegments
      packageFilter cameFromElement

/-- `getElement`. -/
def getElement (env : Env) (fuel : Nat) (snapshotId fshPath : String) :
    NavResult ElementDefinition :=
  resolvePath env fuel snapshotId (splitFshPath fshPath) none none

/-- The direct-children filter of `getChildren`. -/
def isDirectChildOf (parentId : String) (el : ElementDefinition) : Bool :=
  strStartsWith el.id (parentId ++ ".") ∧
    (let remainder := strDrop el.id (strLen parentId + 1)
     strLen remainder > 0 ∧ ¬ strContains remainder '.')

/-- `getChildren`: resolve the parent, possibly switch to the resolved
element's own definition, select direct children, else recurse through
`contentReference` / single-type rebasing (the choice-type error in between).
The `getMetadata` calls of the source only build cache keys and are omitted
with the caches. -/
def getChildren (env : Env) : Nat → String → String →
    NavResult (List ElementDefinition)
  | 0, _, _ => .diverge
  | Nat.succ n, snapshotId, fshPath =>
    let segments := if fshPath = "." then [] else splitFshPath fshPath
    match resolvePath env n snapshotId segments none none with
    | .err e => .err e
    | .diverge => .diverge
    | .ok resolved =>
      let parentId := resolved.id
      let actualSnapshotId :=
        if resolved.__fromDefinition ≠ "" ∧ resolved.__fromDefinition ≠ snapshotId then
          resolved.__fromDefinition
        else snapshotId
      match getCachedSnapshot env actualSnapshotId none with
      | none => .err (.unavailable actualSnapshotId)
      | some snapshot =>
        let directChildren := snapshot.elements.filter (isDirectChildOf parentId)
        if directChildren ≠ [] then .ok directChildren
        else
          match resolved.contentReference with
          | some cr =>
            match (strSplit cr '#').get? 1 with
            | none => .err .crash
            | some refPath =>
              let baseType := snapshot.type
              let cleanRefPath :=
                if strStartsWith refPath (baseType ++ ".") then
                  strDrop refPath (strLen (baseType ++ "."))
                else refPath
              getChildren env n baseType cleanRefPath
          | none =>
            if (resolved.type.getD []).length > 1 then
              .err (.choiceType resolved.path)
            else
              match resolved.type.getD [] with
              | [] => .ok []
              | typeInfo :: _ =>
                let targetId :=
                  if typeInfo.profile ≠ [] then
                    let canonical := typeInfo.profile.headD ""
                    let simpleId :=
                      (strSplit ((strSplit canonical '/').getLastD "") '|').headD ""
                    if simpleId ≠ "" then simpleId else canonical
                  else typeInfo.code
                if resolved.id = targetId then
                  getChildren env n resolved.__fromDefinition "."
                else getChildren env n targetId "."

/-! ## Cache construction constants (navigator constructor)

The constructor sizes each hot LRU according to whether an external (cold)
tier was supplied for that cache. -/

inductive CacheKind where
  | snapshot | typeMeta | element | children
deriving DecidableEq, Repr

/-- LRU `maxSize` passed to each `TwoTierCache` in the constructor:
`hasExternal ? small : large`. -/
def defaultLruSize : CacheKind → Bool → Nat
  | .snapshot, true => 10
  | .snapshot, false => 50
  | .typeMeta, true => 50
  | .typeMeta, false => 500
  | .element, true => 50
  | .element, false => 250
  | .children, true => 20
  | .children, false => 100

/-! ## Concrete snapshot environments used as inputs to the theorems -/

/-- A minimal Extension-shaped snapshot: a choice element `value[x]` with two
types and no children (faithful miniature of the core `Extension`
StructureDefinition for the behaviours under test). -/
def extValueEl : ElementDefinition :=
  { id := "Extension.value[x]", path := "Extension.value[x]",
    type := some [{ code := "string" }, { code := "boolean" }] }

def snapExt : Snapshot :=
  { url := "urn:Extension", type := "Extension", kind := "complex-type",
    __corePackage := ⟨"core", "1"⟩, __packageId := "p", __packageVersion := "1",
    elements := [{ id := "Extension", path := "Extension" }, extValueEl] }

def envExt : Env :=
  { getSnapshot := fun id _ =>
      if id = "Extension" ∨ id = "urn:Extension" then some snapExt else none,
    lookup := fun _ _ => [] }

/-- Structure whose element `A2.v` carries two type entries, with the first
type resolvable: exercises `_attemptRebase` on a multi-typed previous
element. -/
def snapA2 : Snapshot :=
  { url := "urn:A2", type := "A2", kind := "resource",
    __corePackage := ⟨"core", "1"⟩, __packageId := "p", __packageVersion := "1",
    elements := [{ id := "A2", path := "A2" },
      { id := "A2.v", path := "A2.v",
        type := some [{ code := "T1" }, { code := "T2" }] }] }

def snapT1 : Snapshot :=
  { url := "urn:T1", type := "T1", kind := "complex-type",
    __corePackage := ⟨"core", "1"⟩, __packageId := "p", __packageVersion := "1",
    elements := [{ id := "T1", path := "T1" },
      { id := "T1.w", path := "T1.w", type := some [{ code := "uri" }] }] }

def envC2 : Env :=
  { getSnapshot := fun id _ =>
      if id = "A2" then some snapA2
      else if id = "T1" then some snapT1 else none,
    lookup := fun _ _ => [] }

/-- Structure with a self-referential `contentReference`: `A4.x` refers to
`#A4.x`, so a failed lookup under it rebases back onto itself. -/
def snapA4 : Snapshot :=
  { url := "urn:A4", type := "A4", kind := "resource",
    __corePackage := ⟨"core", "1"⟩, __packageId := "p", __packageVersion := "1",
    elements := [{ id := "A4", path := "A4" },
      { id := "A4.x", path := "A4.x", contentReference := some "#A4.x" }] }

def envC4 : Env :=
  { getSnapshot := fun id _ => if id = "A4" then some snapA4 else none,
    lookup := fun _ _ => [] }

/-- Structure where a `contentReference` element points at a childless choice
element: `A5.x` → `#A5.y`, and `A5.y` has two types. -/
def snapA5 : Snapshot :=
  { url := "urn:A5", type := "A5", kind := "resource",
    __corePackage := ⟨"core", "1"⟩, __packageId := "p", __packageVersion := "1",
    elements := [{ id := "A5", path := "A5" },
      { id := "A5.x", path := "A5.x", contentReference := some "#A5.y" },
      { id := "A5.y", path := "A5.y",
        type := some [{ code := "t1" }, { code := "t2" }] }] }

def envC5 : Env :=
  { getSnapshot := fun id _ =>
      if id = "A5" ∨ id = "urn:A5" then some snapA5 else none,
    lookup := fun _ _ => [] }

/-- Bundle-shaped structure: `B.e.l` has `contentReference` `#B.l`, whose
children live under `B.l`. -/
def snapB : Snapshot :=
  { url := "urn:B", type := "B", kind := "resource",
    __corePackage := ⟨"core", "1"⟩, __packageId := "p", __packageVersion := "1",
    elements := [{ id := "B", path := "B" },
      { id := "B.e", path := "B.e", type := some [{ code := "BackboneElement" }] },
      { id := "B.e.l", path := "B.e.l", contentReference := some "#B.l" },
      { id := "B.l", path := "B.l", type := some [{ code := "BackboneElement" }] },
      { id := "B.l.u", path := "B.l.u", type := some [{ code := "uri" }] }] }

def envC6 : Env :=
  { getSnapshot := fun id _ =>
      if id = "B" ∨ id = "urn:B" then some snapB else none,
    lookup := fun _ _ => [] }

/-- A plain resource with one child element. -/
def snapP : Snapshot :=
  { url := "urn:P", type := "P", kind := "resource",
    __corePackage := ⟨"core", "1"⟩, __packageId := "p", __packageVersion := "1",
    elements := [{ id := "P", path := "P" },
      { id := "P.g", path := "P.g", type := some [{ code := "code" }] }] }

def envC7 : Env :=
  { getSnapshot := fun id _ =>
      if id = "P" ∨ id = "urn:P" then some snapP else none,
    lookup := fun _ _ => [] }

/-- Profile environment for the virtual-slice hop: `P3.ext` allows type
`Extension`; the bracket token `myext` looks up to an Extension-typed
profile, `badext` to an incompatibly-typed one. -/
def snapP3 : Snapshot :=
  { url := "urn:P3", type := "P3", kind := "resource",
    __corePackage := ⟨"core", "1"⟩, __packageId := "p", __packageVersion := "1",
    elements := [{ id := "P3", path := "P3" },
      { id := "P3.ext", path := "P3.ext", type := some [{ code := "Extension" }] }] }

def snapMyext : Snapshot :=
  { url := "urn:myext", type := "Extension", kind := "complex-type",
    __corePackage := ⟨"core", "1"⟩, __packageId := "pkgx", __packageVersion := "2",
    elements := [{ id := "Extension", path := "Extension" },
      { id := "Extension.url", path := "Extension.url",
        type := some [{ code := "uri" }] }] }

def envC3 : Env :=
  { getSnapshot := fun id _ =>
      if id = "P3" then some snapP3
      else if id = "myext" ∨ id = "urn:myext" then some snapMyext else none,
    lookup := fun id _ =>
      if id = "myext" then [⟨"Extension", "pkgx", "2"⟩]
      else if id = "badext" then [⟨"Observation", "pkgx", "2"⟩] else [] }

/-! ## Derived and spec-modelled definitions used by the theorems -/

/-- Boundary-splitter formulation of the lexer: every chunk between
flag-clear dots is produced, including empty ones.  The flag update is the
single boolean of the source: set by `[`, cleared by `]`, no nesting count. -/
def chunksFrom : List Char → Bool → List (List Char)
  | [], _ => [[]]
  | c :: rest, inB =>
    let inB' := if c = '[' then true else if c = ']' then false else inB
    if c = '.' ∧ inB' = false then [] :: chunksFrom rest inB'
    else
      match chunksFrom rest inB' with
      | [] => [[c]]
      | h :: t => (c :: h) :: t

/-- Emission step of the amended lexer description: all chunks become
segments except a trailing empty accumulator. -/
def emitChunks (l : List (List Char)) : List String :=
  (if l.getLast? = some [] then l.dropLast else l).map (fun c => ⟨c⟩)

def prependHead (cur : List Char) : List (List Char) → List (List Char)
  | [] => [cur]
  | h :: t => (cur ++ h) :: t

/-- `splitFshPathDepth`: the lexer as the frozen claim words it, with a
bracket nesting **depth** counter instead of the source's boolean flag.
Modelled from the spec for comparison with `splitFshPath`. -/
def splitFshDepthGo : List Char → List Char → Nat → List String
  | [], cur, _ => if cur ≠ [] then [⟨cur⟩] else []
  | c :: rest, cur, d =>
    let d' := if c = '[' then d + 1 else if c = ']' then d - 1 else d
    if c = '.' ∧ d' = 0 then ⟨cur⟩ :: splitFshDepthGo rest [] d'
    else splitFshDepthGo rest (cur ++ [c]) d'

def splitFshPathDepth (path : String) : List String :=
  splitFshDepthGo path.data [] 0

/-- Resolution of `"x.y"` in the self-referential structure `A4` exhausts
every fuel bound: each round rebases through the contentReference back onto
the same path, so the recursion never terminates. -/
def resolveDivergesC4 : Prop :=
  ∀ (fuel : Nat) (packageFilter : Option Pkg),
    resolvePath envC4 fuel "A4" ["x", "y"] packageFilter none = .diverge

/-- The child element returned by `getChildren("B", "e.l")` on the Bundle-shaped
environment. -/
def elBlu : ElementDefinition :=
  { id := "B.l.u", path := "B.l.u", type := some [{ code := "uri" }],
    __fromDefinition := "urn:B", __name := some ["u"] }

/-! ## Theorems -/

theorem splitCL_ne_nil (sep : Char) (cs : List Char) : splitCL sep cs ≠ [] := by
  induction cs with
  | nil => simp [splitCL]
  | cons c cs ih =>
    simp only [splitCL]
    split
    · simp
    · split
      · simp
      · simp

theorem strSplit_ne_nil (s : String) (sep : Char) : strSplit s sep ≠ [] := by
  simp [strSplit, splitCL_ne_nil]

/-! ### Lexer characterizations (claims C7, C8) -/

theorem chunksFrom_ne_nil (cs : List Char) (inB : Bool) : chunksFrom cs inB ≠ [] := by
  cases cs with
  | nil => simp [chunksFrom]
  | cons c rest =>
    simp only [chunksFrom]
    by_cases h : (c = '.' ∧ (if c = '[' then true else if c = ']' then false else inB) = false)
    · obtain ⟨hc, hf⟩ := h
      subst hc
      rw [if_neg (by decide), if_neg (by decide)] at hf
      simp [hf]
    · simp only [if_neg h]
      generalize chunksFrom rest (if c = '[' then true else if c = ']' then false else inB) = K
      cases K <;> simp

theorem prependHead_nil_of_ne_nil {K : List (List Char)} (h : K ≠ []) :
    prependHead [] K = K := by
  cases K with
  | nil => exact absurd rfl h
  | cons a t => simp [prependHead]

theorem emitChunks_cons {K : List (List Char)} (a : List Char) (h : K ≠ []) :
    emitChunks (a :: K) = (⟨a⟩ : String) :: emitChunks K := by
  cases K with
  | nil => exact absurd rfl h
  | cons b t =>
    simp only [emitChunks, List.getLast?_cons_cons]
    split
    · simp
    · simp

theorem splitFshGo_eq_emitChunks (cs : List Char) : ∀ (cur : List Char) (inB : Bool),
    splitFshGo cs cur inB = emitChunks (prependHead cur (chunksFrom cs inB)) := by
  induction cs with
  | nil =>
    intro cur inB
    simp only [splitFshGo, chunksFrom, prependHead, emitChunks]
    by_cases h : cur = []
    · subst h; simp
    · simp [h]
  | cons c rest ih =>
    intro cur inB
    simp only [splitFshGo, chunksFrom]
    by_cases h : (c = '.' ∧ (if c = '[' then true else if c = ']' then false else inB) = false)
    · simp only [if_pos h]
      rw [ih [] _]
      rw [prependHead_nil_of_ne_nil (chunksFrom_ne_nil _ _)]
      have hne := chunksFrom_ne_nil rest (if c = '[' then true else if c = ']' then false else inB)
      show _ :: emitChunks _ = emitChunks (prependHead cur ([] :: _))
      simp only [prependHead, List.append_nil]
      rw [emitChunks_cons cur hne]
    · simp only [if_neg h]
      rw [ih (cur ++ [c]) _]
      rcases hK : chunksFrom rest (if c = '[' then true else if c = ']' then false else inB) with
        _ | ⟨hd, tl⟩
      · exact absurd hK (chunksFrom_ne_nil _ _)
      · simp only [prependHead, List.append_assoc, List.cons_append, List.nil_append]

/-- Claim C8 counterexample: the source lexer uses a single boolean
`inBrackets` flag, not a nesting depth, so a dot after an inner `]` splits
the segment even though an outer `[` is still open; on `"a[b[c].d]"` the
source disagrees with the depth-counter reading of the claim. -/
theorem claim_C8_counterexample :
    splitFshPath "a[b[c].d]" = ["a[b[c]", "d]"] ∧
    splitFshPathDepth "a[b[c].d]" = ["a[b[c].d]"] ∧
    splitFshPath "a[b[c].d]" ≠ splitFshPathDepth "a[b[c].d]" := by
  refine ⟨rfl, rfl, ?_⟩
  decide

/-- Claim C8 (amended): a `.` is a segment boundary exactly when the single
boolean in-brackets flag is clear — the flag is set by `[` and cleared by `]`
with no nesting count, so a dot following an inner `]` splits even under an
open outer bracket — and the trailing accumulator is emitted as the last
segment when non-empty: `splitFshPath` equals the boundary-chunk description
`emitChunks ∘ chunksFrom`, and on nested brackets it splits at the inner
close. -/
theorem claim_C8_flag_boundary_characterization :
    (∀ path : String, splitFshPath path = emitChunks (chunksFrom path.data false)) ∧
    splitFshPath "a[b[c].d]" = ["a[b[c]", "d]"] := by
  constructor
  · intro path
    rw [splitFshPath, splitFshGo_eq_emitChunks,
      prependHead_nil_of_ne_nil (chunksFrom_ne_nil _ _)]
  · rfl

/-- Claim C9 counterexample: the hot LRU sizes in the constructor are
`snapshot 50, type-meta 500, element 250, children 100` without a cold tier
— not `100/500/2000/500` — and shrink to `10/50/50/20` when the
corresponding cold tier is configured, so they do depend on its presence. -/
theorem claim_C9_counterexample :
    defaultLruSize .snapshot false = 50 ∧ defaultLruSize .snapshot false ≠ 100 ∧
    defaultLruSize .element false = 250 ∧ defaultLruSize .element false ≠ 2000 ∧
    defaultLruSize .snapshot true ≠ defaultLruSize .snapshot false := by
  decide

/-- Claim C9 (amended): the hot LRU capacities are snapshot 50, type-meta
500, element 250 and children 100 when the corresponding cache has no cold
tier, and snapshot 10, type-meta 50, element 50 and children 20 when it has
one; every capacity differs with cold-tier presence. -/
theorem claim_C9_capacity_table :
    (defaultLruSize .snapshot false = 50 ∧ defaultLruSize .typeMeta false = 500 ∧
     defaultLruSize .element false = 250 ∧ defaultLruSize .children false = 100) ∧
    (defaultLruSize .snapshot true = 10 ∧ defaultLruSize .typeMeta true = 50 ∧
     defaultLruSize .element true = 50 ∧ defaultLruSize .children true = 20) ∧
    (defaultLruSize .snapshot true ≠ defaultLruSize .snapshot false ∧
     defaultLruSize .typeMeta true ≠ defaultLruSize .typeMeta false ∧
     defaultLruSize .element true ≠ defaultLruSize .element false ∧
     defaultLruSize .children true ≠ defaultLruSize .children false) := by
  decide

/-- Claim C7 counterexample: `splitFshPath "."` is `[""]`, a single empty
segment, not the empty sequence; and `getElement` does not special-case the
`"."` sentinel, so on a plain snapshot it fails with the not-found error for
the empty segment instead of resolving the root. -/
theorem claim_C7_counterexample :
    splitFshPath "." = [""] ∧ (([""] : List String) ≠ ([] : List String)) ∧
    getElement envC7 1 "P" "." = .err (.notFound "" "P" "P") := by
  exact ⟨rfl, by decide, rfl⟩

/-- Claim C7 (amended): `splitFshPath "."` returns one empty segment, not the
empty sequence.  `getChildren` special-cases the `"."` sentinel before
tokenizing — it behaves exactly like the empty path, whose tokenization is
empty — and so resolves the snapshot root (shown on a concrete snapshot),
while `getElement` has no such special case and fails on the empty segment
(see the counterexample). -/
theorem claim_C7_dot_sentinel :
    splitFshPath "." = [""] ∧
    (∀ (env : Env) (n : Nat) (sid : String),
      getChildren env (n + 1) sid "." = getChildren env (n + 1) sid "") ∧
    getChildren envC7 2 "P" "." =
      .ok [{ id := "P.g", path := "P.g", type := some [{ code := "code" }],
             __fromDefinition := "urn:P", __name := some ["g"] }] := by
  refine ⟨rfl, ?_, rfl⟩
  intro env n sid
  simp only [getChildren, if_pos rfl, if_neg (by decide : ¬("" : String) = "."),
    show splitFshPath "" = [] from rfl, if_true]

/-! ## Polymorphic narrowing (claims C1, C10) -/

/-- The matcher reports a narrowed type only for a polymorphic element. -/
theorem matcher_narrowed_isPolymorphic :
    ∀ (elements : List ElementDefinition) (sp : String)
      (el : ElementDefinition) (t : ElementDefinitionType),
      resolveElementPathWithPolymorphism elements sp = some (el, some t) →
      isPolymorphic el = true := by
  intro elements
  induction elements with
  | nil => intro sp el t h; simp [resolveElementPathWithPolymorphism] at h
  | cons e rest ih =>
    intro sp el t h
    rw [resolveElementPathWithPolymorphism] at h
    by_cases h1 : (e.id = sp ∨ e.id = sp ++ "[x]")
    · rw [if_pos h1] at h
      simp at h
    · by_cases h2 : isPolymorphic e
      · simp only [if_neg h1, if_pos h2] at h
        rcases hf : (e.type.getD []).find?
            (fun tt => strDropRight e.id 3 ++ initCap tt.code = sp) with _ | t1
        · simp only [hf] at h
          rcases hb : bracketSearchMatch sp with _ | ⟨outer, inner⟩
          · simp only [hb] at h
            exact ih sp el t h
          · simp only [hb] at h
            by_cases h3 : outer = strDropRight e.id 3
            · by_cases h4 : inner = "x"
              · simp only [if_pos h3, if_pos h4] at h
                simp at h
              · simp only [if_pos h3, if_neg h4] at h
                rcases hf2 : (e.type.getD []).find?
                    (fun tt => inner = outer ++ initCap tt.code ∨ inner = initCap tt.code) with
                  _ | t2
                · simp only [hf2] at h
                  exact ih sp el t h
                · simp only [hf2] at h
                  simp at h
                  exact h.1 ▸ h2
            · simp only [if_neg h3] at h
              exact ih sp el t h
        · simp only [hf] at h
          simp at h
          exact h.1 ▸ h2
      · simp only [if_neg h1, if_neg h2] at h
        exact ih sp el t h

/-- Claim C1: when a path segment resolves through canonical-suffix
polymorphic narrowing — a polymorphic element `el` (id/path ending `[x]`)
with a type entry `t` matches the searched path — `getElement` returns the
explicit real slice `el.id + ":" + inferredSliceName` when the element list
contains one, and otherwise the polymorphic element itself with its `path`
unchanged (still ending `[x]`), its `type` narrowed to `[t]`, and `__name`
equal to the one-element list of the inferred slice name. -/
theorem claim_C1_polymorphic_narrowing (env : Env) (n : Nat)
    (sid fshPath seg base : String) (s : Snapshot) (root : ElementDefinition)
    (rest0 : List ElementDefinition) (el : ElementDefinition)
    (t : ElementDefinitionType)
    (hs : getCachedSnapshot env sid none = some s)
    (he : s.elements = root :: rest0)
    (hsplit : splitFshPath fshPath = [seg])
    (hparse : parseSegment seg = (base, none))
    (hmatch : resolveElementPathWithPolymorphism s.elements (root.id ++ "." ++ base) =
      some (el, some t)) :
    strEndsWith el.path "[x]" = true ∧
    getElement env (n + 1) sid fshPath =
      .ok ((s.elements.find?
          (fun e => e.id = el.id ++ ":" ++ inferredSliceName el.id t.code)).getD
        { el with type := some [t],
                  __name := some [inferredSliceName el.id t.code] }) := by
  refine ⟨matcher_narrowed_isPolymorphic s.elements _ el t hmatch, ?_⟩
  rw [he] at hmatch ⊢
  simp only [getElement, hsplit, resolvePath, resolvePathBody, hs, he, resolveLoop,
    hparse, hmatch]

/-- Claim C1 witness: `getElement("Extension", "valueString")` returns the
`Extension.value[x]` element narrowed to the single `string` type with
`__name == ["valueString"]`. -/
theorem claim_C1_witness :
    strEndsWith "Extension.value[x]" "[x]" = true ∧
    getElement envExt 1 "Extension" "valueString" =
      .ok { id := "Extension.value[x]", path := "Extension.value[x]",
            type := some [{ code := "string" }],
            __fromDefinition := "urn:Extension",
            __name := some ["valueString"] } := by
  have h := claim_C1_polymorphic_narrowing envExt 0 "Extension" "valueString"
    "valueString" "valueString"
    { url := "urn:Extension", type := "Extension", kind := "complex-type",
      __corePackage := ⟨"core", "1"⟩, __packageId := "p", __packageVersion := "1",
      elements := [{ id := "Extension", path := "Extension",
                     __fromDefinition := "urn:Extension" },
        { id := "Extension.value[x]", path := "Extension.value[x]",
          type := some [{ code := "string" }, { code := "boolean" }],
          __fromDefinition := "urn:Extension",
          __name := some ["valueString", "valueBoolean"] }] }
    { id := "Extension", path := "Extension", __fromDefinition := "urn:Extension" }
    [{ id := "Extension.value[x]", path := "Extension.value[x]",
       type := some [{ code := "string" }, { code := "boolean" }],
       __fromDefinition := "urn:Extension",
       __name := some ["valueString", "valueBoolean"] }]
    { id := "Extension.value[x]", path := "Extension.value[x]",
      type := some [{ code := "string" }, { code := "boolean" }],
      __fromDefinition := "urn:Extension",
      __name := some ["valueString", "valueBoolean"] }
    { code := "string" }
    rfl rfl rfl rfl rfl
  exact ⟨h.1, h.2.trans (by decide)⟩

/-- Claim C10: `getElement` with the empty string path (tokenizing to no
segments) succeeds on any fetchable snapshot and returns the snapshot's root
element with its `type` replaced by the single entry
`{code := snapshot.type, __kind := snapshot.kind}`, regardless of the root's
original type list. -/
theorem claim_C10_empty_path_root (env : Env) (n : Nat) (sid : String)
    (s : Snapshot) (root : ElementDefinition) (rest0 : List ElementDefinition)
    (hs : getCachedSnapshot env sid none = some s)
    (he : s.elements = root :: rest0) :
    getElement env (n + 1) sid "" =
      .ok { root with
            type := some [{ code := s.type, profile := [], __kind := some s.kind }] } := by
  simp only [getElement, show splitFshPath "" = [] from rfl, resolvePath,
    resolvePathBody, hs, he]

/-- Claim C10 witness: on the Extension environment the empty path returns
the root with `type == [{code := "Extension", __kind := "complex-type"}]`. -/
theorem claim_C10_witness :
    getElement envExt 1 "Extension" "" =
      .ok { id := "Extension", path := "Extension",
            type := some [{ code := "Extension", __kind := some "complex-type" }],
            __fromDefinition := "urn:Extension" } := by
  have h := claim_C10_empty_path_root envExt 0 "Extension"
    { url := "urn:Extension", type := "Extension", kind := "complex-type",
      __corePackage := ⟨"core", "1"⟩, __packageId := "p", __packageVersion := "1",
      elements := [{ id := "Extension", path := "Extension",
                     __fromDefinition := "urn:Extension" },
        { id := "Extension.value[x]", path := "Extension.value[x]",
          type := some [{ code := "string" }, { code := "boolean" }],
          __fromDefinition := "urn:Extension",
          __name := some ["valueString", "valueBoolean"] }] }
    { id := "Extension", path := "Extension", __fromDefinition := "urn:Extension" }
    [{ id := "Extension.value[x]", path := "Extension.value[x]",
       type := some [{ code := "string" }, { code := "boolean" }],
       __fromDefinition := "urn:Extension",
       __name := some ["valueString", "valueBoolean"] }]
    rfl rfl
  exact h.trans (by decide)

/-! ## Rebasing discipline (claims C2, C4) -/

/-- Claim C2 counterexample: element `A2.v` carries **two** type entries, yet
when segment `w` is not found under it the resolver does not signal the
not-found error — it rebases into the first type `T1` and succeeds. -/
theorem claim_C2_counterexample :
    getElement envC2 2 "A2" "v.w" =
      .ok { id := "T1.w", path := "T1.w", type := some [{ code := "uri" }],
            __fromDefinition := "urn:T1", __name := some ["w"] } ∧
    (snapA2.elements.find? (fun e => e.id = "A2.v")).map
        (fun e => (e.type.getD []).length) = some 2 := by
  exact ⟨rfl, rfl⟩

/-- Claim C2 (amended): when the previous element has no `contentReference`,
a rebase is performed whenever its type array has **at least one** entry,
always using the first entry (profile canonical if present, else the type
code); the not-found error is reached only when the type array is empty or
absent. -/
theorem claim_C2_rebase_on_first_type (env : Env) (rp : RP)
    (p : ElementDefinition) (snapshot : Snapshot) (rest : List String)
    (hcr : p.contentReference = none) :
    ((p.type = none ∨ p.type = some []) →
      attemptRebase env rp (some p) snapshot rest = none) ∧
    (∀ t ts, p.type = some (t :: ts) →
      attemptRebase env rp (some p) snapshot rest =
        some (rp
          (if (t.profile.head?).getD "" ≠ "" then (t.profile.head?).getD "" else t.code)
          rest
          (some (if (t.profile.head?).getD "" ≠ "" then
              ⟨snapshot.__packageId, snapshot.__packageVersion⟩
            else snapshot.__corePackage))
          none)) := by
  constructor
  · rintro (h | h) <;> simp [attemptRebase, hcr, h]
  · intro t ts h
    simp [attemptRebase, hcr, h]

/-- Claim C2 witness: for the concrete two-typed element `A2.v` the rebase
fires with target `T1` (its first type) and the full remaining suffix. -/
theorem claim_C2_witness :
    attemptRebase envC2 (resolvePath envC2 1)
        (some { id := "A2.v", path := "A2.v",
                type := some [{ code := "T1" }, { code := "T2" }],
                __fromDefinition := "urn:A2" })
        snapA2 ["w"] =
      some (resolvePath envC2 1
        (if ((({ code := "T1" } : ElementDefinitionType).profile.head?).getD "" ≠ "") then
            ((({ code := "T1" } : ElementDefinitionType).profile.head?).getD "")
          else ({ code := "T1" } : ElementDefinitionType).code)
        ["w"]
        (some (if ((({ code := "T1" } : ElementDefinitionType).profile.head?).getD "" ≠ "") then
            ⟨snapA2.__packageId, snapA2.__packageVersion⟩
          else snapA2.__corePackage))
        none) := by
  exact (claim_C2_rebase_on_first_type envC2 (resolvePath envC2 1)
    { id := "A2.v", path := "A2.v",
      type := some [{ code := "T1" }, { code := "T2" }],
      __fromDefinition := "urn:A2" }
    snapA2 ["w"] rfl).2 { code := "T1" } [{ code := "T2" }] rfl

/-- Claim C4 counterexample: path resolution does **not** terminate on every
input.  On a snapshot whose element `A4.x` has contentReference `#A4.x`, the
contentReference rebase prepends the referenced path to the remaining
segments, reproducing the same resolution problem; with no cycle-detection
state the resolver loops for ever (here: diverges at every fuel bound). -/
theorem claim_C4_counterexample :
    resolveDivergesC4 ∧
    resolvePath envC4 50 "A4" ["x", "y"] none none = .diverge := by
  have step : ∀ (n : Nat) (f : Option Pkg),
      resolvePath envC4 (n + 1) "A4" ["x", "y"] f none =
        resolvePath envC4 n "A4" ["x", "y"] (some ⟨"core", "1"⟩) none :=
    fun _ _ => rfl
  have main : resolveDivergesC4 := by
    intro fuel
    induction fuel with
    | zero => intro f; rfl
    | succ n ih =>
      intro f
      rw [step n f]
      exact ih _
  exact ⟨main, main 50 none⟩

/-- Claim C4 (amended): a base-type/profile rebase passes exactly the same
remaining segment suffix to the recursive resolution, but a contentReference
rebase passes the referenced path's segments **prepended** to the suffix — a
strictly longer list — so the caller-supplied path length does not bound the
recursion and, with no cycle-detection state, termination fails on cyclic
inputs (see the counterexample). -/
theorem claim_C4_rebase_suffix_lengths (env : Env) (rp : RP)
    (p : ElementDefinition) (snapshot : Snapshot) (rest : List String) :
    (∀ cr refPath, p.contentReference = some cr →
      (strSplit cr '#').get? 1 = some refPath →
      attemptRebase env rp (some p) snapshot rest =
        some (rp snapshot.type
          (strSplit (if strStartsWith refPath (snapshot.type ++ ".") then
              strDrop refPath (strLen (snapshot.type ++ "."))
            else refPath) '.' ++ rest)
          (some snapshot.__corePackage) none) ∧
      (strSplit (if strStartsWith refPath (snapshot.type ++ ".") then
          strDrop refPath (strLen (snapshot.type ++ "."))
        else refPath) '.' ++ rest).length > rest.length) ∧
    (∀ t ts, p.contentReference = none → p.type = some (t :: ts) →
      ∃ targetId targetPackage,
        attemptRebase env rp (some p) snapshot rest =
          some (rp targetId rest (some targetPackage) none)) := by
  constructor
  · intro cr refPath hcr hget
    constructor
    · simp only [List.get?_eq_getElem?] at hget
      simp [attemptRebase, hcr, hget]
    · have hne := strSplit_ne_nil (if strStartsWith refPath (snapshot.type ++ ".") then
          strDrop refPath (strLen (snapshot.type ++ "."))
        else refPath) '.'
      have hpos := List.length_pos.mpr hne
      simp only [List.length_append, gt_iff_lt]
      omega
  · intro t ts hcr hty
    refine ⟨(if (t.profile.head?).getD "" ≠ "" then (t.profile.head?).getD "" else t.code),
      (if (t.profile.head?).getD "" ≠ "" then
          ⟨snapshot.__packageId, snapshot.__packageVersion⟩
        else snapshot.__corePackage), ?_⟩
    simp [attemptRebase, hcr, hty]

/-- Claim C4 witness: on the concrete contentReference element `A4.x` the
rebase call carries `["x", "y"]`, longer than the remaining suffix
`["y"]`. -/
theorem claim_C4_witness :
    attemptRebase envC4 (resolvePath envC4 3)
        (some { id := "A4.x", path := "A4.x", contentReference := some "#A4.x",
                __fromDefinition := "urn:A4", __name := some ["x"] })
        snapA4 ["y"] =
      some (resolvePath envC4 3 snapA4.type
        (strSplit (if strStartsWith "A4.x" (snapA4.type ++ ".") then
            strDrop "A4.x" (strLen (snapA4.type ++ "."))
          else "A4.x") '.' ++ ["y"])
        (some snapA4.__corePackage) none) ∧
    (strSplit (if strStartsWith "A4.x" (snapA4.type ++ ".") then
        strDrop "A4.x" (strLen (snapA4.type ++ "."))
      else "A4.x") '.' ++ ["y"]).length > (["y"] : List String).length :=
  (claim_C4_rebase_suffix_lengths envC4 (resolvePath envC4 3)
    { id := "A4.x", path := "A4.x", contentReference := some "#A4.x",
      __fromDefinition := "urn:A4", __name := some ["x"] }
    snapA4 ["y"]).1 "#A4.x" "A4.x" rfl rfl

/-! ## Children resolution (claims C5, C6) -/

/-- Claim C5 counterexample: `getChildren` can fail with the choice-type
error although the element the path resolved to has a `contentReference`
(and no multi-entry type list): the error propagates out of the
contentReference recursion, whose own terminal `A5.y` is the childless
two-typed element.  So the "exactly when" characterization of the original
call's terminal is false. -/
theorem claim_C5_counterexample :
    getChildren envC5 3 "A5" "x" = .err (.choiceType "A5.y") ∧
    resolvePath envC5 2 "A5"
        (if ("x" : String) = "." then [] else splitFshPath "x") none none =
      .ok { id := "A5.x", path := "A5.x", contentReference := some "#A5.y",
            __fromDefinition := "urn:A5", __name := some ["y"] } := by
  exact ⟨rfl, rfl⟩

/-- Claim C5 (amended): `getChildren` fails with the "cannot resolve children
for choice type element" error **whenever** the resolved terminal element has
no direct children in the consulted snapshot, no `contentReference`, and more
than one entry in its type array (the same error can additionally surface
from recursive contentReference/type-rebase calls whose own terminal
satisfies these conditions); in particular
`getChildren("Extension", "value[x]")` fails with it (witness). -/
theorem claim_C5_choice_children_error (env : Env) (n : Nat)
    (sid fshPath : String) (r : ElementDefinition) (s : Snapshot)
    (hres : resolvePath env n sid
        (if fshPath = "." then [] else splitFshPath fshPath) none none = .ok r)
    (hsnap : getCachedSnapshot env
        (if r.__fromDefinition ≠ "" ∧ r.__fromDefinition ≠ sid then
          r.__fromDefinition
        else sid) none = some s)
    (hnochild : s.elements.filter (isDirectChildOf r.id) = [])
    (hnocr : r.contentReference = none)
    (hmulti : (r.type.getD []).length > 1) :
    getChildren env (n + 1) sid fshPath = .err (.choiceType r.path) := by
  simp only [getChildren, hres, hsnap, hnochild, hnocr]
  simp [hmulti]

/-- Claim C5 witness: `getChildren("Extension", "value[x]")` fails with the
choice-type error on the Extension environment. -/
theorem claim_C5_witness :
    getChildren envExt 2 "Extension" "value[x]" =
      .err (.choiceType "Extension.value[x]") := by
  have h := claim_C5_choice_children_error envExt 1 "Extension" "value[x]"
    { id := "Extension.value[x]", path := "Extension.value[x]",
      type := some [{ code := "string" }, { code := "boolean" }],
      __fromDefinition := "urn:Extension",
      __name := some ["valueString", "valueBoolean"] }
    { url := "urn:Extension", type := "Extension", kind := "complex-type",
      __corePackage := ⟨"core", "1"⟩, __packageId := "p", __packageVersion := "1",
      elements := [{ id := "Extension", path := "Extension",
                     __fromDefinition := "urn:Extension" },
        { id := "Extension.value[x]", path := "Extension.value[x]",
          type := some [{ code := "string" }, { code := "boolean" }],
          __fromDefinition := "urn:Extension",
          __name := some ["valueString", "valueBoolean"] }] }
    rfl rfl rfl rfl (by decide)
  exact h

theorem strDataAppend (a b : String) : (a ++ b).data = a.data ++ b.data := rfl

/-- Members of a direct-children filter decompose as the parent id, a dot,
and a non-empty dot-free suffix. -/
theorem isDirectChildOf_decomp (q : String) (el : ElementDefinition)
    (h : isDirectChildOf q el = true) :
    ∃ suffix, el.id = q ++ "." ++ suffix ∧ suffix ≠ "" ∧
      strContains suffix '.' = false := by
  simp only [isDirectChildOf, decide_eq_true_eq] at h
  obtain ⟨h1, h2, h3⟩ := h
  obtain ⟨tl, htl⟩ := List.isPrefixOf_iff_prefix.mp h1
  have hrem : strDrop el.id (strLen q + 1) = (⟨tl⟩ : String) := by
    apply String.ext
    show el.id.data.drop (q.data.length + 1) = tl
    rw [← htl]
    show ((q.data ++ ['.']) ++ tl).drop (q.data.length + 1) = tl
    have hlen : (q.data ++ ['.']).length = q.data.length + 1 := by simp
    rw [← hlen, List.drop_left]
  refine ⟨⟨tl⟩, String.ext htl.symm, ?_, ?_⟩
  · intro heq
    rw [hrem] at h2
    rw [heq] at h2
    simp [strLen] at h2
  · rw [hrem] at h3
    simpa using h3

/-- Claim C6 counterexample: through contentReference recursion the returned
children extend the id of the element finally consulted (`B.l`), not the id
of the element the path resolved to (`B.e.l`): `getChildren("B", "e.l")`
returns `B.l.u`, which does not extend `B.e.l`. -/
theorem claim_C6_counterexample :
    getChildren envC6 5 "B" "e.l" =
      .ok [{ id := "B.l.u", path := "B.l.u", type := some [{ code := "uri" }],
             __fromDefinition := "urn:B", __name := some ["u"] }] ∧
    resolvePath envC6 4 "B"
        (if ("e.l" : String) = "." then [] else splitFshPath "e.l") none none =
      .ok { id := "B.e.l", path := "B.e.l", contentReference := some "#B.l",
            __fromDefinition := "urn:B", __name := some ["l"] } ∧
    strStartsWith "B.l.u" ("B.e.l" ++ ".") = false := by
  exact ⟨rfl, rfl, by decide⟩

/-- Claim C6 (amended): every successful non-empty `getChildren` result is a
direct-children selection for a **single** parent id `q` — each returned
element's id is `q + "." + suffix` with a non-empty dot-free suffix — where
`q` is the id of the element whose snapshot was finally consulted; under
contentReference recursion or base-type/profile rebasing this `q` differs
from the id of the element the original path resolved to (see the
counterexample). -/
theorem claim_C6_children_single_parent (env : Env) :
    ∀ (n : Nat) (sid fshPath : String) (l : List ElementDefinition),
      getChildren env n sid fshPath = .ok l → l ≠ [] →
      ∃ q, ∀ el ∈ l, ∃ suffix, el.id = q ++ "." ++ suffix ∧ suffix ≠ "" ∧
        strContains suffix '.' = false := by
  intro n
  induction n with
  | zero =>
    intro sid p l h hne
    exact absurd h (by simp [getChildren])
  | succ n ih =>
    intro sid p l h hne
    simp only [getChildren] at h
    split at h
    next e heq => simp at h
    next heq => simp at h
    next resolved heq =>
      split at h
      next hsnap => simp at h
      next snapshot hsnap =>
        split at h
        next hdc =>
          simp only [NavResult.ok.injEq] at h
          subst h
          refine ⟨resolved.id, ?_⟩
          intro el hel
          exact isDirectChildOf_decomp _ _ (List.mem_filter.mp hel).2
        next hdc =>
          split at h
          next cr hcr =>
            split at h
            next hget => simp at h
            next refPath hget => exact ih _ _ l h hne
          next hcr =>
            split at h
            next hlen => simp at h
            next hlen =>
              split at h
              next hty =>
                simp only [NavResult.ok.injEq] at h
                exact absurd h.symm hne
              next typeInfo tail hty =>
                repeat' split at h
                all_goals exact ih _ _ l h hne

/-- Claim C6 witness: applying the single-parent decomposition to the
concrete contentReference result of `getChildren("B", "e.l")`. -/
theorem claim_C6_witness :
    ∃ q, ∀ el ∈ [elBlu],
      ∃ suffix, el.id = q ++ "." ++ suffix ∧ suffix ≠ "" ∧
        strContains suffix '.' = false :=
  claim_C6_children_single_parent envC6 5 "B" "e.l" [elBlu] rfl (by decide)

/-! ## Virtual-slice resolution (claim C3) -/

/-- Partial evaluation of `getElement` for a single bracketed segment whose
base resolves directly (no narrowing): the outcome is governed by
`_resolveSlice`, with the profile hop re-entering resolution when the
resolved element's origin differs from the current snapshot's url. -/
theorem getElement_single_slice_step (env : Env) (n : Nat)
    (sid fshPath seg base sliceTok : String) (s : Snapshot)
    (root : ElementDefinition) (rest0 : List ElementDefinition)
    (b : ElementDefinition)
    (hs : getCachedSnapshot env sid none = some s)
    (he : s.elements = root :: rest0)
    (hsplit : splitFshPath fshPath = [seg])
    (hparse : parseSegment seg = (base, some sliceTok))
    (hmatch : resolveElementPathWithPolymorphism s.elements (root.id ++ "." ++ base) =
      some (b, none)) :
    getElement env (n + 1) sid fshPath =
      (match resolveSlice env (resolvePath env n) b sliceTok s.elements
          s.__corePackage with
       | .err e => .err e
       | .diverge => .diverge
       | .ok resolved =>
         if resolved.__fromDefinition ≠ s.url then
           resolvePath env n resolved.__fromDefinition [] none (some b)
         else .ok resolved) := by
  rw [he] at hmatch ⊢
  simp only [getElement, hsplit, resolvePath, resolvePathBody, hs, he, resolveLoop,
    hparse, hmatch]

/-- When the bracket token is no real slice and (for a polymorphic base) no
`x` token or type code, `_resolveSlice` falls through to the virtual-slice
lookup. -/
theorem resolveSlice_fallback (env : Env) (rp : RP) (b : ElementDefinition)
    (sliceTok : String) (elements : List ElementDefinition) (core : Pkg)
    (hnoslice : elements.find? (fun e => e.id = b.id ++ ":" ++ sliceTok) = none)
    (hpoly : isPolymorphic b = true →
      sliceTok ≠ "x" ∧ (b.type.getD []).find? (fun t => t.code = sliceTok) = none) :
    resolveSlice env rp b sliceTok elements core =
      (match tryResolveSnapshot env sliceTok (b.type.getD []) core with
       | .error e => .err e
       | .ok (some trySnapshot) =>
         rp sliceTok [] (some ⟨trySnapshot.__packageId, trySnapshot.__packageVersion⟩) none
       | .ok none => .err (.sliceNotFound sliceTok b.id)) := by
  rw [resolveSlice]
  simp only [hnoslice]
  by_cases hp : isPolymorphic b
  · obtain ⟨hx, hfind⟩ := hpoly hp
    simp [hp, hx, hfind]
  · simp [hp]

/-- Stage 1 of `_tryResolveSnapshot`: a singleton core-package lookup is
accepted iff its type is among the allowed codes, else the typed mismatch. -/
theorem tryResolveSnapshot_lookup_singleton (env : Env) (id : String)
    (allowedTypes : List ElementDefinitionType) (core : Pkg) (ref : SnapRef)
    (hlk : env.lookup id core = [ref]) :
    tryResolveSnapshot env id allowedTypes core =
      (if ¬ allowedTypes.any (fun t => t.code = ref.type) then
        .error (.typeMismatch id ref.type (allowedTypes.map (·.code)))
      else .ok (some ref)) := by
  simp only [tryResolveSnapshot, hlk]

/-- Stage 2 of `_tryResolveSnapshot`: when the lookup is not a singleton, a
generic snapshot fetch is consulted under the same type-compatibility
check. -/
theorem tryResolveSnapshot_generic_fetch (env : Env) (id : String)
    (allowedTypes : List ElementDefinitionType) (core : Pkg) (sd2 : Snapshot)
    (hlk : (env.lookup id core).length ≠ 1)
    (hfetch : getCachedSnapshot env id none = some sd2)
    (hty : sd2.type ≠ "") :
    tryResolveSnapshot env id allowedTypes core =
      (if ¬ allowedTypes.any (fun t => t.code = sd2.type) then
        .error (.typeMismatch id sd2.type (allowedTypes.map (·.code)))
      else .ok (some ⟨sd2.type, sd2.__packageId, sd2.__packageVersion⟩)) := by
  rw [tryResolveSnapshot]
  rcases hl : env.lookup id core with _ | ⟨a, tl⟩
  · simp [hl, hfetch, hty]
  · rcases tl with _ | ⟨a2, tl2⟩
    · exact absurd (by simp [hl]) hlk
    · simp [hl, hfetch, hty]

/-- Claim C3: a bracketed slice token that is neither a real slice of the
resolved base element nor (for a polymorphic base) `x` or one of its type
codes, but that resolves to a StructureDefinition — by singleton core-package
lookup or by generic fetch — makes `getElement` fail with the typed mismatch
error when the StructureDefinition's type equals no code in the base
element's `type`, and otherwise continue resolution in that
StructureDefinition's snapshot (the virtual-slice profile hop). -/
theorem claim_C3_virtual_slice_type_check (env : Env) (n : Nat)
    (sid fshPath seg base sliceTok : String) (s : Snapshot)
    (root : ElementDefinition) (rest0 : List ElementDefinition)
    (b : ElementDefinition)
    (hs : getCachedSnapshot env sid none = some s)
    (he : s.elements = root :: rest0)
    (hsplit : splitFshPath fshPath = [seg])
    (hparse : parseSegment seg = (base, some sliceTok))
    (hmatch : resolveElementPathWithPolymorphism s.elements (root.id ++ "." ++ base) =
      some (b, none))
    (hnoslice : s.elements.find? (fun e => e.id = b.id ++ ":" ++ sliceTok) = none)
    (hpoly : isPolymorphic b = true →
      sliceTok ≠ "x" ∧ (b.type.getD []).find? (fun t => t.code = sliceTok) = none) :
    (∀ ref, env.lookup sliceTok s.__corePackage = [ref] →
      ((¬ (b.type.getD []).any (fun t => t.code = ref.type)) →
        getElement env (n + 1) sid fshPath =
          .err (.typeMismatch sliceTok ref.type ((b.type.getD []).map (·.code)))) ∧
      ((b.type.getD []).any (fun t => t.code = ref.type) →
        ∀ r, resolvePath env n sliceTok []
            (some ⟨ref.__packageId, ref.__packageVersion⟩) none = .ok r →
          r.__fromDefinition ≠ s.url →
          getElement env (n + 1) sid fshPath =
            resolvePath env n r.__fromDefinition [] none (some b))) ∧
    (∀ sd2 : Snapshot, (env.lookup sliceTok s.__corePackage).length ≠ 1 →
      getCachedSnapshot env sliceTok none = some sd2 → sd2.type ≠ "" →
      ((¬ (b.type.getD []).any (fun t => t.code = sd2.type)) →
        getElement env (n + 1) sid fshPath =
          .err (.typeMismatch sliceTok sd2.type ((b.type.getD []).map (·.code)))) ∧
      ((b.type.getD []).any (fun t => t.code = sd2.type) →
        ∀ r, resolvePath env n sliceTok []
            (some ⟨sd2.__packageId, sd2.__packageVersion⟩) none = .ok r →
          r.__fromDefinition ≠ s.url →
          getElement env (n + 1) sid fshPath =
            resolvePath env n r.__fromDefinition [] none (some b))) := by
  have hstep := getElement_single_slice_step env n sid fshPath seg base sliceTok
    s root rest0 b hs he hsplit hparse hmatch
  have hfall := resolveSlice_fallback env (resolvePath env n) b sliceTok
    s.elements s.__corePackage hnoslice hpoly
  rw [hfall] at hstep
  constructor
  · intro ref hlk
    rw [tryResolveSnapshot_lookup_singleton env sliceTok (b.type.getD [])
      s.__corePackage ref hlk] at hstep
    constructor
    · intro hna
      rw [if_pos hna] at hstep
      exact hstep
    · intro ha r hr hne
      rw [if_neg (by simpa using ha)] at hstep
      rw [hstep]
      simp [hr, hne]
  · intro sd2 hlk hfetch hty
    rw [tryResolveSnapshot_generic_fetch env sliceTok (b.type.getD [])
      s.__corePackage sd2 hlk hfetch hty] at hstep
    constructor
    · intro hna
      rw [if_pos hna] at hstep
      exact hstep
    · intro ha r hr hne
      rw [if_neg (by simpa using ha)] at hstep
      rw [hstep]
      simp [hr, hne]

/-- Claim C3 witness: the compatible case on the concrete profile
environment — `getElement("P3", "ext[myext]")` hops into the `myext`
snapshot (type `Extension`, allowed by `P3.ext`). -/
theorem claim_C3_witness :
    getElement envC3 2 "P3" "ext[myext]" =
      resolvePath envC3 1 "urn:myext" [] none
        (some { id := "P3.ext", path := "P3.ext",
                type := some [{ code := "Extension" }],
                __fromDefinition := "urn:P3", __name := some ["ext"] }) := by
  have h := (claim_C3_virtual_slice_type_check envC3 1 "P3" "ext[myext]"
    "ext[myext]" "ext" "myext"
    { url := "urn:P3", type := "P3", kind := "resource",
      __corePackage := ⟨"core", "1"⟩, __packageId := "p", __packageVersion := "1",
      elements := [{ id := "P3", path := "P3", __fromDefinition := "urn:P3" },
        { id := "P3.ext", path := "P3.ext",
          type := some [{ code := "Extension" }],
          __fromDefinition := "urn:P3", __name := some ["ext"] }] }
    { id := "P3", path := "P3", __fromDefinition := "urn:P3" }
    [{ id := "P3.ext", path := "P3.ext", type := some [{ code := "Extension" }],
       __fromDefinition := "urn:P3", __name := some ["ext"] }]
    { id := "P3.ext", path := "P3.ext", type := some [{ code := "Extension" }],
      __fromDefinition := "urn:P3", __name := some ["ext"] }
    rfl rfl rfl rfl rfl rfl (by decide)).1
    ⟨"Extension", "pkgx", "2"⟩ rfl
  exact h.2 (by decide)
    { id := "Extension", path := "Extension",
      type := some [{ code := "Extension", __kind := some "complex-type" }],
      __fromDefinition := "urn:myext" }
    rfl (by decide)

end FhirNav
